import Mathlib

/-!
Verification development for the PeerPigeon-Go signaling server
(`internal/server/server.go`).  The Go code is shallowly embedded:
Go maps become association lists with at-most-one occurrence per key
maintained by the insert operation, goroutine-visible state becomes the
`ServerState` record threaded through explicit transition functions, and
socket / bootstrap writes become an explicit `Output` list.  A handler
that dereferences a nil pointer in Go is modelled by returning `none`
(the process panics: the read loop runs in a goroutine that no recovery
middleware covers).
-/

namespace PeerPigeon

/-- A flat JSON-ish scalar value stored in an attribute bag
(`map[string]interface{}` values that the server ever inspects are
strings and booleans; other payloads stay opaque text). -/
inductive Value where
  | vStr : String → Value
  | vBool : Bool → Value
  | vNat : Nat → Value
deriving DecidableEq, Repr

/-- Go `map[string]interface{}` attribute bag, as an association list in
which each key occurs at most once (maintained by `ainsert`). -/
abbrev AttrMap := List (String × Value)

/-- Go `interface{}` as carried in a message `data` field: either a JSON
object (the only shape the server's type assertions accept) or some other
JSON value kept as its canonical text. -/
inductive GoValue where
  | gMap : AttrMap → GoValue
  | gOther : String → GoValue
deriving DecidableEq, Repr

/-- Lookup in an association list: the first binding of the key, which is
the unique one on lists built by `ainsert`/`aerase` (Go map read). -/
def alookup {α : Type} : List (String × α) → String → Option α
  | [], _ => none
  | (k, v) :: rest, key => if k == key then some v else alookup rest key

/-- Go `delete(m, k)`. -/
def aerase {α : Type} : List (String × α) → String → List (String × α)
  | [], _ => []
  | p :: rest, k => if p.1 == k then aerase rest k else p :: aerase rest k

/-- Go `m[k] = v`: any old binding is dropped, the new one appended. -/
def ainsert {α : Type} (m : List (String × α)) (k : String) (v : α) : List (String × α) :=
  aerase m k ++ [(k, v)]

/-- The keys of a Go map (iteration in list order: Go map iteration order
is unspecified, so any fixed order is a sound determinization). -/
def akeys {α : Type} (m : List (String × α)) : List String := m.map (·.1)

theorem alookup_append {α : Type} (m n : List (String × α)) (k : String) :
    alookup (m ++ n) k = match alookup m k with
      | some v => some v
      | none => alookup n k := by
  induction m with
  | nil => simp [alookup]
  | cons p rest ih =>
    by_cases hp : p.1 == k
    · simp [alookup, hp]
    · simp [alookup, hp, ih]

theorem alookup_aerase_self {α : Type} (m : List (String × α)) (k : String) :
    alookup (aerase m k) k = none := by
  induction m with
  | nil => rfl
  | cons p rest ih =>
    by_cases hp : p.1 == k
    · simp [aerase, hp, ih]
    · simp [aerase, hp, alookup, ih]

theorem alookup_aerase_ne {α : Type} (m : List (String × α)) (k k' : String)
    (h : k' ≠ k) : alookup (aerase m k) k' = alookup m k' := by
  induction m with
  | nil => rfl
  | cons p rest ih =>
    by_cases hp : p.1 == k
    · have hpk : p.1 = k := beq_iff_eq.mp hp
      have hne : (p.1 == k') = false := by
        rw [hpk]
        simp only [beq_eq_false_iff_ne]
        exact fun hc => h hc.symm
      simp [aerase, hp, alookup, hne, ih]
    · by_cases hq : p.1 == k'
      · simp [aerase, hp, alookup, hq]
      · simp [aerase, hp, alookup, hq, ih]

theorem alookup_ainsert_self {α : Type} (m : List (String × α)) (k : String) (v : α) :
    alookup (ainsert m k v) k = some v := by
  unfold ainsert
  rw [alookup_append, alookup_aerase_self]
  simp [alookup]

theorem alookup_ainsert_ne {α : Type} (m : List (String × α)) (k k' : String) (v : α)
    (h : k' ≠ k) : alookup (ainsert m k v) k' = alookup m k' := by
  unfold ainsert
  rw [alookup_append, alookup_aerase_ne m k k' h]
  cases hc : alookup m k' with
  | some w => rfl
  | none =>
    have hne : (k == k') = false := by
      simp only [beq_eq_false_iff_ne]
      exact fun hc2 => h hc2.symm
    simp [alookup, hne]

/-- `mergeMap` from server.go: copy `a` into a fresh map, then copy `b`
over it, so bindings of `b` win on shared keys. -/
def mergeMap (a b : AttrMap) : AttrMap :=
  let out := a.foldl (fun acc p => ainsert acc p.1 p.2) []
  b.foldl (fun acc p => ainsert acc p.1 p.2) out

/-- `firstNonEmpty` from server.go: `a` when its whitespace-trimmed form
is nonempty, otherwise `b`; note the untrimmed `a` is returned. -/
def isGoSpace (c : Char) : Bool :=
  c == ' ' || c == '\t' || c == '\n' || c == '\r' || c == '\x0b' || c == '\x0c'

/-- Model of Go `strings.TrimSpace` on ASCII whitespace. -/
def trimSpace (s : String) : String :=
  String.mk (((s.toList.dropWhile isGoSpace).reverse.dropWhile isGoSpace).reverse)

def firstNonEmpty (a b : String) : String :=
  if trimSpace a != "" then a else b

/-- `peerInfo` from the server package (struct fields as used by
server.go; zero values of Go are the defaults of `handleWS`). -/
structure peerInfo where
  peerId : String
  connectedAt : Nat
  lastActivity : Nat
  remoteAddress : String
  connected : Bool
  announced : Bool
  announcedAt : Nat
  networkName : String
  isHub : Bool
  data : AttrMap
deriving DecidableEq, Repr

/-- `hubInfo` from server.go. -/
structure hubInfo where
  peerId : String
  registeredAt : Nat
  lastActivity : Nat
  networkName : String
  data : AttrMap
deriving DecidableEq, Repr

/-- `bootstrapConn` from server.go; `hasWs` models `ws != nil`. -/
structure bootstrapConn where
  uri : String
  hasWs : Bool
  connected : Bool
  lastAttempt : Nat
  attemptNum : Nat
deriving DecidableEq, Repr

/-- The inbound JSON envelope (`inboundMessage`). -/
structure inboundMessage where
  type : String
  data : GoValue
  fromPeerId : String
  targetPeer : String
  networkName : String
deriving DecidableEq, Repr

/-- The outbound JSON envelope (`outboundMessage`). -/
structure outboundMessage where
  type : String
  data : GoValue
  fromPeerId : String
  targetPeer : String
  networkName : String
  timestamp : Nat
deriving DecidableEq, Repr

/-- The configuration fields of `Options` that the handlers read. -/
structure Options where
  host : String
  maxConnections : Nat
  hubMeshNamespace : String
deriving DecidableEq, Repr

/-- The mutable maps of `Server`: client sockets are identified by a
numeric socket id (`wsConns : peerId → socket`), network membership sets
keep insertion order, and the relay-dedup map carries insertion
timestamps in milliseconds. -/
structure ServerState where
  wsConns : List (String × Nat)
  peerData : List (String × peerInfo)
  networkPeers : List (String × List String)
  hubs : List (String × hubInfo)
  relayed : List (String × Nat)
  crossHubCache : List (String × List (String × AttrMap))
  bootstrapConns : List (String × bootstrapConn)
deriving DecidableEq, Repr

def ServerState.empty : ServerState :=
  { wsConns := [], peerData := [], networkPeers := [], hubs := [],
    relayed := [], crossHubCache := [], bootstrapConns := [] }

/-- An observable effect of a handler: a JSON frame written to a client
socket, a socket close (with the close code when one is sent), or a
frame written to a bootstrap link identified by its URI. -/
inductive Output where
  | sendConn : Nat → outboundMessage → Output
  | closeConn : Nat → Option Nat → Output
  | sendBootstrap : String → outboundMessage → Output
deriving DecidableEq, Repr

/-- Ascending lexicographic sort, modelling `sort.Strings`. -/
def insSorted (x : String) : List String → List String
  | [] => [x]
  | y :: ys => if x < y ∨ x = y then x :: y :: ys else y :: insSorted x ys

def sortStrings (l : List String) : List String := l.foldr insSorted []

/-- `getConn`. -/
def getConn (st : ServerState) (id : String) : Option Nat := alookup st.wsConns id

/-- `getPeerInfo`. -/
def getPeerInfo (st : ServerState) (id : String) : Option peerInfo := alookup st.peerData id

/-- `getActivePeers`: the ids of the given network's membership set that
are not `exclude` and still have a socket, sorted ascending. -/
def getActivePeers (st : ServerState) (exclude netName : String) : List String :=
  match alookup st.networkPeers netName with
  | none => []
  | some set => sortStrings (set.filter (fun id => id != exclude && (getConn st id).isSome))

/-- `sendToConn` on a possibly-nil socket: one frame when the socket
exists, nothing otherwise (the Go bool result is `isSome`). -/
def sendToConn (conn : Option Nat) (msg : outboundMessage) : List Output :=
  match conn with
  | some c => [Output.sendConn c msg]
  | none => []

/-- `forwardToLocalTarget`. -/
def forwardToLocalTarget (st : ServerState) (target : String) (msg : outboundMessage) : List Output :=
  sendToConn (getConn st target) msg

/-- `broadcastPeerDiscovered`: fan a `peer-discovered` frame out to every
active peer of the network other than the announcer; the payload merges
the announcer's data with the server-supplied `peerId`/`isHub` keys,
the server-supplied bindings winning. -/
def broadcastPeerDiscovered (st : ServerState) (now : Nat) (peerId netName : String)
    (isHub : Bool) (data : AttrMap) : List Output :=
  ((getActivePeers st "" netName).map (fun other =>
    if other == peerId then []
    else forwardToLocalTarget st other
      { type := "peer-discovered",
        data := GoValue.gMap (mergeMap data [("peerId", Value.vStr peerId), ("isHub", Value.vBool isHub)]),
        fromPeerId := "system", targetPeer := other, networkName := netName,
        timestamp := now })).flatten

/-- `sendExistingPeersToNew`: backfill the announcer with one
`peer-discovered` per already-active peer of the network. -/
def sendExistingPeersToNew (st : ServerState) (now : Nat) (peerId netName : String) : List Output :=
  let peers := getActivePeers st peerId netName
  let conn := getConn st peerId
  (peers.map (fun p =>
    match getPeerInfo st p, conn with
    | some pi, some c =>
      [Output.sendConn c
        { type := "peer-discovered",
          data := GoValue.gMap (mergeMap pi.data [("peerId", Value.vStr p), ("isHub", Value.vBool pi.isHub)]),
          fromPeerId := "system", targetPeer := peerId, networkName := netName,
          timestamp := now }]
    | _, _ => [])).flatten

/-- `sendCachedCrossHubPeersToNew`: backfill the announcer with the
cross-hub cache entries of its network whose ids are not locally
connected. -/
def sendCachedCrossHubPeersToNew (st : ServerState) (now : Nat) (peerId netName : String) : List Output :=
  match alookup st.crossHubCache netName with
  | none => []
  | some cache =>
    let conn := getConn st peerId
    (cache.map (fun entry =>
      if (alookup st.wsConns entry.1).isSome then []
      else
        sendToConn conn
          { type := "peer-discovered",
            data := GoValue.gMap (mergeMap entry.2 [("peerId", Value.vStr entry.1)]),
            fromPeerId := "system", targetPeer := peerId, networkName := netName,
            timestamp := now })).flatten

/-- The connected bootstrap links (uri order of the table). -/
def connectedBootstrapURIs (st : ServerState) : List String :=
  (st.bootstrapConns.filter (fun p => p.2.connected && p.2.hasWs)).map (·.1)

/-- `announceToBootstrap`: one `peer-discovered` JSON frame per connected
bootstrap link.  Note that the payload starts from the server-supplied
`peerId`/`isHub` keys and then copies the client data over them, so here
the client bindings win on shared keys. -/
def announceToBootstrap (st : ServerState) (now : Nat) (peerId netName : String)
    (isHub : Bool) (data : AttrMap) : List Output :=
  let payload : AttrMap :=
    data.foldl (fun acc p => ainsert acc p.1 p.2)
      [("peerId", Value.vStr peerId), ("isHub", Value.vBool isHub)]
  (connectedBootstrapURIs st).map (fun uri =>
    Output.sendBootstrap uri
      { type := "peer-discovered", data := GoValue.gMap payload,
        fromPeerId := "system", targetPeer := "", networkName := netName,
        timestamp := now })

/-- `handlePing`. -/
def handlePing (st : ServerState) (now : Nat) (peerId : String) : List Output :=
  sendToConn (getConn st peerId)
    { type := "pong", data := GoValue.gMap [("timestamp", Value.vNat now)],
      fromPeerId := "system", targetPeer := peerId, networkName := "global",
      timestamp := now }

/-- `broadcastToOthers`: send `msg` (retargeted per receiver) to every
connected peer other than the sender, in any network. -/
def broadcastToOthers (st : ServerState) (sender : String) (msg : outboundMessage) : List Output :=
  let ids := (akeys st.wsConns).filter (fun id => id != sender)
  (ids.map (fun id => sendToConn (getConn st id) { msg with targetPeer := id })).flatten

/-- The network-membership pruning block of `cleanupPeer` (server.go
lines 361-368): remove the peer from the set of network `nn`, deleting
the set when it becomes empty. -/
def dropFromNetworkSet (st : ServerState) (nn peerId : String) : ServerState :=
  match alookup st.networkPeers nn with
  | some set =>
    let set' := set.filter (fun id => id != peerId)
    if set'.isEmpty then { st with networkPeers := aerase st.networkPeers nn }
    else { st with networkPeers := ainsert st.networkPeers nn set' }
  | none => st

/-- The cross-hub-cache pruning block of `cleanupPeer` (server.go lines
369-373). -/
def dropFromCrossHubCache (st : ServerState) (nn peerId : String) : ServerState :=
  match alookup st.crossHubCache nn with
  | some cache =>
    { st with crossHubCache := ainsert st.crossHubCache nn (aerase cache peerId) }
  | none => st

/-- `cleanupPeer`: drop the socket and the peer record; when a record
existed, also drop the hub entry (if the record's `isHub` is set) and
the membership-set and cross-hub-cache entries of the record's network
(when that network is nonempty). -/
def cleanupPeer (st : ServerState) (peerId : String) : ServerState :=
  let st1 := { st with wsConns := aerase st.wsConns peerId }
  let pi := alookup st1.peerData peerId
  let st2 := { st1 with peerData := aerase st1.peerData peerId }
  let st3 :=
    match pi with
    | some p => if p.isHub then { st2 with hubs := aerase st2.hubs peerId } else st2
    | none => st2
  match pi with
  | none => st3
  | some p =>
    if p.networkName != "" then
      dropFromCrossHubCache (dropFromNetworkSet st3 p.networkName peerId) p.networkName peerId
    else st3

/-- `handleDisconnect` (the read loop's error path): broadcast
`peer-disconnected` to every other connected peer, then clean up. -/
def handleDisconnect (st : ServerState) (now : Nat) (peerId reason : String) : ServerState × List Output :=
  let pi := alookup st.peerData peerId
  let netName :=
    match pi with
    | some p => firstNonEmpty p.networkName "global"
    | none => "global"
  let isHub :=
    match pi with
    | some p => p.isHub
    | none => false
  let out := broadcastToOthers st peerId
    { type := "peer-disconnected",
      data := GoValue.gMap [("peerId", Value.vStr peerId), ("isHub", Value.vBool isHub),
        ("reason", Value.vStr reason), ("timestamp", Value.vNat now)],
      fromPeerId := "system", targetPeer := "", networkName := netName,
      timestamp := now }
  (cleanupPeer st peerId, out)

/-- `forwardSignalToBootstrap`: write the envelope to every connected
bootstrap link. -/
def forwardSignalToBootstrap (st : ServerState) (resp : outboundMessage) : List Output :=
  (connectedBootstrapURIs st).map (fun uri => Output.sendBootstrap uri resp)

/-- The relay-dedup fingerprint key of `handleSignaling`:
`type:source:target:hash(data)`. -/
def relayId (hash : GoValue → String) (peerId : String) (msg : inboundMessage) : String :=
  msg.type ++ ":" ++ peerId ++ ":" ++ msg.targetPeer ++ ":" ++ hash msg.data

/-- The target-network computation of `handleSignaling` (server.go
lines 293-297): a missing or never-announced target record counts as
network `"global"`. -/
def effectiveNetwork (tp : Option peerInfo) : String :=
  match tp with
  | some p => if p.networkName != "" then p.networkName else "global"
  | none => "global"

/-- `handleSignaling`, parameterized by the signal-data hash function
(`hashSignalData`, deterministic by construction).  Local targets in the
same effective network get the envelope directly; a cross-network local
target is dropped; a non-local target goes through the dedup set to the
bootstrap links. -/
def handleSignaling (hash : GoValue → String) (now : Nat) (st : ServerState)
    (peerId : String) (msg : inboundMessage) (resp : outboundMessage) : ServerState × List Output :=
  let target := msg.targetPeer
  let netName := firstNonEmpty msg.networkName "global"
  if target == "" then (st, [])
  else if (getConn st target).isSome then
    let tn := effectiveNetwork (getPeerInfo st target)
    if netName != tn then (st, [])
    else (st, forwardToLocalTarget st target resp)
  else
    let id := relayId hash peerId msg
    match alookup st.relayed id with
    | some _ => (st, [])
    | none =>
      let st' := { st with relayed := ainsert st.relayed id now }
      (st', forwardSignalToBootstrap st' resp)

/-- `handleAnnounce`.  When the peer record is missing (`pi == nil` in
Go, e.g. after a `goodbye` on a still-open socket) the Go code reaches
`pi.Data` at the `broadcastPeerDiscovered` call and panics: that case is
`none` here.  Note the network-membership add happens before the panic
point and the old network's set is never pruned on re-announce. -/
def handleAnnounce (opts : Options) (now : Nat) (st : ServerState)
    (peerId : String) (msg : inboundMessage) : Option (ServerState × List Output) :=
  let netName := firstNonEmpty msg.networkName "global"
  let isHub :=
    match msg.data with
    | GoValue.gMap m =>
      match alookup m "isHub" with
      | some (Value.vBool b) => b
      | _ => false
    | _ => false
  let pi1 : Option peerInfo :=
    (alookup st.peerData peerId).map (fun pi =>
      { pi with
        announced := true, announcedAt := now, networkName := netName,
        isHub := isHub || netName == opts.hubMeshNamespace,
        data := match msg.data with | GoValue.gMap m => m | _ => pi.data })
  let st1 :=
    match pi1 with
    | some pi => { st with peerData := ainsert st.peerData peerId pi }
    | none => st
  let st2 :=
    match pi1 with
    | some pi =>
      if pi.isHub then
        let h : hubInfo :=
          { peerId := peerId, registeredAt := now, lastActivity := now,
            networkName := netName, data := pi.data }
        { st1 with hubs := ainsert st1.hubs peerId h }
      else st1
    | none => st1
  let nset :=
    match alookup st2.networkPeers netName with
    | some set => if set.contains peerId then set else set ++ [peerId]
    | none => [peerId]
  let st3 := { st2 with networkPeers := ainsert st2.networkPeers netName nset }
  match pi1 with
  | none => none
  | some pi =>
    let out1 := broadcastPeerDiscovered st3 now peerId netName isHub pi.data
    let out2 := sendExistingPeersToNew st3 now peerId netName
    let out3 := sendCachedCrossHubPeersToNew st3 now peerId netName
    let out4 := announceToBootstrap st3 now peerId netName isHub pi.data
    some (st3, out1 ++ out2 ++ out3 ++ out4)

/-- The outbound envelope `handleMessage` builds before dispatching
(server.go line 185). -/
def mkResp (now : Nat) (peerId : String) (msg : inboundMessage) : outboundMessage :=
  { type := msg.type, data := msg.data,
    fromPeerId := firstNonEmpty msg.fromPeerId peerId,
    targetPeer := msg.targetPeer,
    networkName := firstNonEmpty msg.networkName "global",
    timestamp := now }

/-- The `lastActivity` touch at the top of `handleMessage`. -/
def touch (st : ServerState) (peerId : String) (now : Nat) : ServerState :=
  match alookup st.peerData peerId with
  | some pi => { st with peerData := ainsert st.peerData peerId { pi with lastActivity := now } }
  | none => st

/-- `handleMessage`: `raw = none` is a frame `json.Unmarshal` rejects
(silently dropped).  The result is `none` exactly when the dispatched
handler panics. -/
def handleMessage (opts : Options) (hash : GoValue → String) (now : Nat)
    (st : ServerState) (peerId : String) (raw : Option inboundMessage) :
    Option (ServerState × List Output) :=
  match raw with
  | none => some (st, [])
  | some msg =>
    let st := touch st peerId now
    let resp := mkResp now peerId msg
    if msg.type == "announce" then
      handleAnnounce opts now st peerId msg
    else if msg.type == "goodbye" then
      let out := broadcastToOthers st peerId resp
      some (cleanupPeer st peerId, out)
    else if msg.type == "offer" || msg.type == "answer" || msg.type == "ice-candidate" then
      some (handleSignaling hash now st peerId msg resp)
    else if msg.type == "ping" then
      some (st, handlePing st now peerId)
    else
      some (st, [])

/-- The registration section of `handleWS`, entered after auth, peer-id
validation and the upgrade succeeded: evict a live same-id socket, then
either reject over the connection cap with close code 1008 (policy
violation) or install the socket, create the fresh peer record and send
the `connected` greeting. -/
def handleWS (opts : Options) (now : Nat) (clientIP : String) (st : ServerState)
    (peerId : String) (sockId : Nat) : ServerState × List Output :=
  let old := alookup st.wsConns peerId
  let st1 :=
    match old with
    | some _ => { st with wsConns := aerase st.wsConns peerId }
    | none => st
  let out1 :=
    match old with
    | some oldSock => [Output.closeConn oldSock none]
    | none => []
  if st1.wsConns.length ≥ opts.maxConnections then
    (st1, out1 ++ [Output.closeConn sockId (some 1008)])
  else
    let st2 := { st1 with
      wsConns := ainsert st1.wsConns peerId sockId,
      peerData := ainsert st1.peerData peerId
        { peerId := peerId, connectedAt := now, lastActivity := now,
          remoteAddress := clientIP, connected := true, announced := false,
          announcedAt := 0, networkName := "", isHub := false, data := [] } }
    (st2, out1 ++ [Output.sendConn sockId
      { type := "connected", data := GoValue.gMap [("peerId", Value.vStr peerId)],
        fromPeerId := "system", targetPeer := "", networkName := "global",
        timestamp := now }])

/-- `performCleanup`: sweep relay-dedup entries strictly older than
5000 ms (the network walk in the Go code only reads). -/
def performCleanup (st : ServerState) (now : Nat) : ServerState :=
  { st with relayed := st.relayed.filter (fun p => !(now - p.2 > 5000)) }

/-- Modelled from the spec: decimal rendering of an integer (the `itoa`
helper's file is not among the sources; it is Go's `strconv.Itoa`). -/
def itoa (n : Nat) : String := toString n

/-- The characters after the first `://`, as in Go `net/url` parsing of
a `scheme://authority/path` URI. -/
def afterSchemeChars : List Char → List Char
  | [] => []
  | ':' :: '/' :: '/' :: rest => rest
  | _ :: rest => afterSchemeChars rest

def takeUntilSlash : List Char → List Char
  | [] => []
  | '/' :: _ => []
  | c :: rest => c :: takeUntilSlash rest

/-- Go `url.URL.Host` for a `scheme://host[:port][/path]` URI: the whole
authority, with the port still attached when present. -/
def urlHostOf (uri : String) : String :=
  String.mk (takeUntilSlash (afterSchemeChars uri.toList))

/-- Go `url.URL.Port()`: the digit run after the authority's final
colon, `""` when there is no valid numeric port. -/
def urlPortOf (uri : String) : String :=
  let auth := (urlHostOf uri).toList
  if auth.contains ':' then
    let p := (auth.reverse.takeWhile (fun c => c != ':')).reverse
    if p.all (fun c => c.isDigit) then String.mk p else ""
  else ""

/-- The hostname of the URI without the port (what the spec's "parsed
host" denotes): the authority up to the port colon when one exists. -/
def urlHostnameOf (uri : String) : String :=
  let auth := (urlHostOf uri).toList
  if auth.contains ':' then
    String.mk ((auth.reverse.dropWhile (fun c => c != ':')).reverse.dropLast)
  else String.mk auth

/-- The self-dial guard of `connectToHub` exactly as written: skip when
the parsed `u.Host` equals `opts.Host` AND `u.Port()` equals the bound
port in decimal.  (`u.Host` carries the port, `opts.Host` is the bare
bind host.) -/
def selfDialSkip (opts : Options) (port : Nat) (uri : String) : Bool :=
  urlHostOf uri == opts.host && urlPortOf uri == itoa port

inductive DialResult where
  | skipped
  | attempted
deriving DecidableEq, Repr

/-- What `connectToHub` decides for a parseable URI: return before
dialing when the self-dial guard fires, otherwise attempt the dial (and
only a successful dial creates a bootstrap table entry). -/
def connectToHubDecision (opts : Options) (port : Nat) (uri : String) : DialResult :=
  if selfDialSkip opts port uri then DialResult.skipped else DialResult.attempted

/-- One externally triggered transition of the server: a finished
upgrade, a parsed or unparseable frame from a client read loop, a read
error observed by a client read loop, or a housekeeping tick. -/
inductive Event where
  | connect (peerId : String) (sockId : Nat) (clientIP : String)
  | frame (peerId : String) (msg : inboundMessage)
  | badFrame (peerId : String)
  | socketClosed (peerId reason : String)
  | cleanupTick
deriving DecidableEq, Repr

/-- One step of the server; `none` is a process-killing panic. -/
def step (opts : Options) (hash : GoValue → String) (now : Nat)
    (st : ServerState) (e : Event) : Option (ServerState × List Output) :=
  match e with
  | Event.connect p s ip => some (handleWS opts now ip st p s)
  | Event.frame p m => handleMessage opts hash now st p (some m)
  | Event.badFrame p => handleMessage opts hash now st p none
  | Event.socketClosed p r => some (handleDisconnect st now p r)
  | Event.cleanupTick => some (performCleanup st now, [])

/-- Run a timed event list; `none` as soon as one step panics. -/
def run (opts : Options) (hash : GoValue → String) :
    List (Nat × Event) → ServerState → Option ServerState
  | [], st => some st
  | (t, e) :: rest, st =>
    match step opts hash t st e with
    | none => none
    | some (st', _) => run opts hash rest st'

theorem alookup_filter_keep {α : Type} (m : List (String × α)) (p : String × α → Bool)
    (k : String) (v : α) (h : alookup m k = some v) (hp : p (k, v) = true) :
    alookup (m.filter p) k = some v := by
  induction m with
  | nil => simp [alookup] at h
  | cons q rest ih =>
    obtain ⟨a, b⟩ := q
    by_cases hq : a == k
    · have hk : a = k := beq_iff_eq.mp hq
      subst hk
      have hv : b = v := by simpa [alookup] using h
      subst hv
      simp [List.filter_cons, hp, alookup]
    · have h' : alookup rest k = some v := by simpa [alookup, hq] using h
      by_cases hpq : p (a, b)
      · simp [List.filter_cons, hpq, alookup, hq]
        exact ih h'
      · simp only [List.filter_cons, hpq, if_neg]
        simpa [hpq] using ih h'

theorem alookup_some_mem_akeys {α : Type} (m : List (String × α)) (k : String) (v : α)
    (h : alookup m k = some v) : k ∈ akeys m := by
  induction m with
  | nil => simp [alookup] at h
  | cons q rest ih =>
    by_cases hq : q.1 == k
    · have : q.1 = k := beq_iff_eq.mp hq
      simp [akeys, this]
    · have h' : alookup rest k = some v := by simpa [alookup, hq] using h
      have := ih h'
      simp [akeys] at this ⊢
      exact Or.inr this

theorem touch_wsConns (st : ServerState) (p : String) (now : Nat) :
    (touch st p now).wsConns = st.wsConns := by
  unfold touch
  cases alookup st.peerData p <;> rfl

theorem touch_relayed (st : ServerState) (p : String) (now : Nat) :
    (touch st p now).relayed = st.relayed := by
  unfold touch
  cases alookup st.peerData p <;> rfl

theorem getPeerInfo_touch_map_networkName (st : ServerState) (p : String) (now : Nat)
    (q : String) :
    (getPeerInfo (touch st p now) q).map peerInfo.networkName
      = (getPeerInfo st q).map peerInfo.networkName := by
  unfold touch getPeerInfo
  cases hp : alookup st.peerData p with
  | none => rfl
  | some pi =>
    by_cases hq : q = p
    · subst hq
      rw [alookup_ainsert_self, hp]
      rfl
    · simp only [alookup_ainsert_ne st.peerData p q _ hq]

theorem effectiveNetwork_eq_of_map_networkName (a b : Option peerInfo)
    (h : a.map peerInfo.networkName = b.map peerInfo.networkName) :
    effectiveNetwork a = effectiveNetwork b := by
  cases a with
  | none =>
    cases b with
    | none => rfl
    | some pb => exact Option.noConfusion h
  | some pa =>
    cases b with
    | none => exact Option.noConfusion h
    | some pb =>
      have hn : pa.networkName = pb.networkName := by
        have h2 := h
        simp only [Option.map_some'] at h2
        exact Option.some.inj h2
      simp [effectiveNetwork, hn]

theorem mem_broadcastToOthers (st : ServerState) (sender : String)
    (msg : outboundMessage) (o : Output) :
    o ∈ broadcastToOthers st sender msg ↔
      ∃ q c, q ≠ sender ∧ alookup st.wsConns q = some c ∧
        o = Output.sendConn c { msg with targetPeer := q } := by
  unfold broadcastToOthers
  simp only [List.mem_flatten, List.mem_map, List.mem_filter]
  constructor
  · rintro ⟨l, ⟨q, ⟨hqmem, hqne⟩, rfl⟩, ho⟩
    cases hc : getConn st q with
    | none => simp [sendToConn, hc] at ho
    | some c =>
      refine ⟨q, c, ?_, hc, ?_⟩
      · simpa using hqne
      · simpa [sendToConn, hc] using ho
  · rintro ⟨q, c, hne, hc, rfl⟩
    refine ⟨sendToConn (getConn st q) { msg with targetPeer := q }, ⟨q, ⟨?_, ?_⟩, rfl⟩, ?_⟩
    · exact alookup_some_mem_akeys _ _ _ hc
    · simpa using hne
    · have : getConn st q = some c := hc
      simp [sendToConn, this]

theorem firstNonEmpty_of_trim_ne (a b : String) (h : trimSpace a ≠ "") :
    firstNonEmpty a b = a := by
  simp [firstNonEmpty, h]

theorem firstNonEmpty_of_trim_eq (a b : String) (h : trimSpace a = "") :
    firstNonEmpty a b = b := by
  simp [firstNonEmpty, h]

theorem mergeMap_pair_lookup (a : AttrMap) (k1 k2 : String) (v1 v2 : Value)
    (h : k1 ≠ k2) :
    alookup (mergeMap a [(k1, v1), (k2, v2)]) k1 = some v1 ∧
    alookup (mergeMap a [(k1, v1), (k2, v2)]) k2 = some v2 := by
  unfold mergeMap
  simp only [List.foldl]
  constructor
  · rw [alookup_ainsert_ne _ _ _ _ h]
    exact alookup_ainsert_self _ _ _
  · exact alookup_ainsert_self _ _ _

/-- Concrete configuration used by the closed evaluation theorems. -/
def demoOpts : Options :=
  { host := "localhost", maxConnections := 1000, hubMeshNamespace := "pigeonhub-mesh" }

/-- A concrete signal-data hash (the dedup theorems hold for every hash
function; the closed instances fix one). -/
def demoHash : GoValue → String := fun _ => "h0"

def announceMsg (net : String) : inboundMessage :=
  { type := "announce", data := GoValue.gOther "null", fromPeerId := "",
    targetPeer := "", networkName := net }

def goodbyeMsg : inboundMessage :=
  { type := "goodbye", data := GoValue.gOther "null", fromPeerId := "",
    targetPeer := "", networkName := "" }

def offerMsg (target net : String) : inboundMessage :=
  { type := "offer", data := GoValue.gOther "sdp-x", fromPeerId := "",
    targetPeer := target, networkName := net }

/-- Claim C7: a new upgrade arriving when the number of live connections
already equals `maxConnections`, with a peerId that is not evicting an
existing connection, is closed with close code 1008 (policy violation),
creates no peer record, and leaves the connection map, the peer registry
and the network sets (the whole state) unchanged. -/
theorem handleWS_cap_rejects_new_connection (opts : Options) (now : Nat) (ip : String)
    (st : ServerState) (peerId : String) (sockId : Nat)
    (hno : alookup st.wsConns peerId = none)
    (hcap : st.wsConns.length = opts.maxConnections) :
    handleWS opts now ip st peerId sockId = (st, [Output.closeConn sockId (some 1008)]) := by
  have hge : st.wsConns.length ≥ opts.maxConnections := le_of_eq hcap.symm
  simp [handleWS, hno, hge]

def capDemoState : ServerState :=
  { ServerState.empty with wsConns := [("p1", 5)] }

def capDemoOpts : Options :=
  { host := "localhost", maxConnections := 1, hubMeshNamespace := "pigeonhub-mesh" }

/-- Witness for the claim C7 theorem at a concrete full server. -/
theorem handleWS_cap_rejects_new_connection_witness :
    alookup capDemoState.wsConns "p2" = none ∧
    capDemoState.wsConns.length = capDemoOpts.maxConnections ∧
    handleWS capDemoOpts 9 "ip" capDemoState "p2" 8
      = (capDemoState, [Output.closeConn 8 (some 1008)]) :=
  ⟨by decide, by decide,
   handleWS_cap_rejects_new_connection capDemoOpts 9 "ip" capDemoState "p2" 8
     (by decide) (by decide)⟩

/-- Claim C9: every `peer-discovered` frame fanned out to the other local
peers of the announcer's network carries `data.peerId` equal to the
announcer's connection peerId and `data.isHub` equal to the hub flag of
the announce, even when the client-supplied announce data holds
conflicting `peerId` or `isHub` keys: in the merged payload the
server-supplied bindings override same-named client keys. -/
theorem broadcastPeerDiscovered_server_keys_override (st : ServerState) (now : Nat)
    (peerId netName : String) (isHub : Bool) (data : AttrMap) (o : Output)
    (ho : o ∈ broadcastPeerDiscovered st now peerId netName isHub data) :
    ∃ c other,
      o = Output.sendConn c
        { type := "peer-discovered",
          data := GoValue.gMap (mergeMap data
            [("peerId", Value.vStr peerId), ("isHub", Value.vBool isHub)]),
          fromPeerId := "system", targetPeer := other, networkName := netName,
          timestamp := now } ∧
      alookup (mergeMap data [("peerId", Value.vStr peerId), ("isHub", Value.vBool isHub)])
        "peerId" = some (Value.vStr peerId) ∧
      alookup (mergeMap data [("peerId", Value.vStr peerId), ("isHub", Value.vBool isHub)])
        "isHub" = some (Value.vBool isHub) := by
  unfold broadcastPeerDiscovered at ho
  simp only [List.mem_flatten, List.mem_map] at ho
  obtain ⟨l, ⟨other, hmem, rfl⟩, ho⟩ := ho
  by_cases he : other == peerId
  · simp [he] at ho
  · simp only [he, Bool.false_eq_true, if_false] at ho
    unfold forwardToLocalTarget at ho
    cases hc : getConn st other with
    | none => simp [sendToConn, hc] at ho
    | some c =>
      rw [hc] at ho
      simp only [sendToConn, List.mem_singleton] at ho
      refine ⟨c, other, ho, ?_, ?_⟩
      · exact (mergeMap_pair_lookup data "peerId" "isHub" _ _ (by decide)).1
      · exact (mergeMap_pair_lookup data "peerId" "isHub" _ _ (by decide)).2

def c9State : ServerState :=
  { ServerState.empty with wsConns := [("q", 7)], networkPeers := [("n", ["q"])] }

def c9Data : AttrMap := [("peerId", Value.vStr "evil"), ("isHub", Value.vBool false)]

/-- Witness for the claim C9 theorem: a concrete announce payload whose
client data tries to spoof `peerId` and `isHub`. -/
theorem broadcastPeerDiscovered_server_keys_override_witness :
    Output.sendConn 7
      { type := "peer-discovered",
        data := GoValue.gMap (mergeMap c9Data
          [("peerId", Value.vStr "p"), ("isHub", Value.vBool true)]),
        fromPeerId := "system", targetPeer := "q", networkName := "n",
        timestamp := 4 } ∈ broadcastPeerDiscovered c9State 4 "p" "n" true c9Data ∧
    (∃ c other,
      Output.sendConn 7
        { type := "peer-discovered",
          data := GoValue.gMap (mergeMap c9Data
            [("peerId", Value.vStr "p"), ("isHub", Value.vBool true)]),
          fromPeerId := "system", targetPeer := "q", networkName := "n",
          timestamp := 4 }
        = Output.sendConn c
        { type := "peer-discovered",
          data := GoValue.gMap (mergeMap c9Data
            [("peerId", Value.vStr "p"), ("isHub", Value.vBool true)]),
          fromPeerId := "system", targetPeer := other, networkName := "n",
          timestamp := 4 } ∧
      alookup (mergeMap c9Data [("peerId", Value.vStr "p"), ("isHub", Value.vBool true)])
        "peerId" = some (Value.vStr "p") ∧
      alookup (mergeMap c9Data [("peerId", Value.vStr "p"), ("isHub", Value.vBool true)])
        "isHub" = some (Value.vBool true)) :=
  ⟨by decide,
   broadcastPeerDiscovered_server_keys_override c9State 4 "p" "n" true c9Data _ (by decide)⟩

/-- Claim C10: the outbound envelope built for an inbound message of peer
P carries `fromPeerId` equal to the client-supplied field whenever that
field is nonempty after trimming whitespace, and P's connection peerId
only when it is empty or whitespace — the server never checks the
supplied value against the sending connection; the locally forwarded
signaling frame carries exactly that envelope. -/
theorem forwarded_fromPeerId_prefers_client (opts : Options) (hash : GoValue → String)
    (now : Nat) (st : ServerState) (peerId : String) (msg : inboundMessage) (c : Nat)
    (htype : msg.type = "offer")
    (htarget : msg.targetPeer ≠ "")
    (hconn : alookup st.wsConns msg.targetPeer = some c)
    (hnet : firstNonEmpty msg.networkName "global"
      = effectiveNetwork (alookup st.peerData msg.targetPeer)) :
    handleMessage opts hash now st peerId (some msg)
      = some (touch st peerId now, [Output.sendConn c (mkResp now peerId msg)]) ∧
    (trimSpace msg.fromPeerId ≠ "" → (mkResp now peerId msg).fromPeerId = msg.fromPeerId) ∧
    (trimSpace msg.fromPeerId = "" → (mkResp now peerId msg).fromPeerId = peerId) := by
  refine ⟨?_, fun h => by simp [mkResp, firstNonEmpty_of_trim_ne _ _ h],
          fun h => by simp [mkResp, firstNonEmpty_of_trim_eq _ _ h]⟩
  have htgt : (msg.targetPeer == "") = false := beq_eq_false_iff_ne.mpr htarget
  have hgc : getConn (touch st peerId now) msg.targetPeer = some c := by
    unfold getConn
    rw [touch_wsConns]
    exact hconn
  have htn : effectiveNetwork (getPeerInfo (touch st peerId now) msg.targetPeer)
      = effectiveNetwork (getPeerInfo st msg.targetPeer) :=
    effectiveNetwork_eq_of_map_networkName _ _
      (getPeerInfo_touch_map_networkName st peerId now msg.targetPeer)
  have hbne : (firstNonEmpty msg.networkName "global"
      != effectiveNetwork (getPeerInfo (touch st peerId now) msg.targetPeer)) = false := by
    rw [htn]
    have : firstNonEmpty msg.networkName "global"
        = effectiveNetwork (getPeerInfo st msg.targetPeer) := hnet
    rw [this]
    exact bne_self_eq_false _
  simp [handleMessage, htype, handleSignaling, htgt, hgc, hbne,
    forwardToLocalTarget, sendToConn]

def c10State : ServerState :=
  { ServerState.empty with wsConns := [("b", 2)] }

/-- Witness for the claim C10 theorem: a spoofed nonempty `fromPeerId`
survives into the forwarded envelope. -/
theorem forwarded_fromPeerId_prefers_client_witness :
    ({ offerMsg "b" "" with fromPeerId := "spoofed" } : inboundMessage).type = "offer" ∧
    ({ offerMsg "b" "" with fromPeerId := "spoofed" } : inboundMessage).targetPeer ≠ "" ∧
    alookup c10State.wsConns "b" = some 2 ∧
    firstNonEmpty "" "global" = effectiveNetwork (alookup c10State.peerData "b") ∧
    (handleMessage demoOpts demoHash 3 c10State "a"
        (some { offerMsg "b" "" with fromPeerId := "spoofed" })
      = some (touch c10State "a" 3,
          [Output.sendConn 2 (mkResp 3 "a" { offerMsg "b" "" with fromPeerId := "spoofed" })]) ∧
    (trimSpace ({ offerMsg "b" "" with fromPeerId := "spoofed" } : inboundMessage).fromPeerId ≠ "" →
      (mkResp 3 "a" { offerMsg "b" "" with fromPeerId := "spoofed" }).fromPeerId = "spoofed") ∧
    (trimSpace ({ offerMsg "b" "" with fromPeerId := "spoofed" } : inboundMessage).fromPeerId = "" →
      (mkResp 3 "a" { offerMsg "b" "" with fromPeerId := "spoofed" }).fromPeerId = "a")) :=
  ⟨by decide, by decide, by decide, by decide,
   forwarded_fromPeerId_prefers_client demoOpts demoHash 3 c10State "a"
     { offerMsg "b" "" with fromPeerId := "spoofed" } 2
     (by decide) (by decide) (by decide) (by decide)⟩

/-- Claim C6: for a signaling message whose target is not locally
connected, sending the identical message twice within 5 seconds causes
exactly one transmission per connected bootstrap link: the first send
records the fingerprint `(type, source, target, hash(data))` and
forwards one frame to every connected bootstrap socket, and the second
send is dropped because the fingerprint is still present (the
housekeeping sweep between the sends keeps entries at most 5000 ms
old).  Holds for every hash function, hence for `hashSignalData`. -/
theorem handleSignaling_relay_dedup (hash : GoValue → String) (t1 t2 : Nat)
    (st : ServerState) (peerId : String) (msg : inboundMessage)
    (resp1 resp2 : outboundMessage)
    (htarget : msg.targetPeer ≠ "")
    (hconn : alookup st.wsConns msg.targetPeer = none)
    (hfresh : alookup st.relayed (relayId hash peerId msg) = none)
    (hwithin : t2 - t1 ≤ 5000) :
    (handleSignaling hash t1 st peerId msg resp1).2
      = (connectedBootstrapURIs st).map (fun uri => Output.sendBootstrap uri resp1) ∧
    alookup (handleSignaling hash t1 st peerId msg resp1).1.relayed
        (relayId hash peerId msg) = some t1 ∧
    handleSignaling hash t2
        (performCleanup (handleSignaling hash t1 st peerId msg resp1).1 t2) peerId msg resp2
      = (performCleanup (handleSignaling hash t1 st peerId msg resp1).1 t2, []) := by
  have htgt : (msg.targetPeer == "") = false := beq_eq_false_iff_ne.mpr htarget
  have hgc : getConn st msg.targetPeer = none := hconn
  have h1 : handleSignaling hash t1 st peerId msg resp1
      = ({ st with relayed := ainsert st.relayed (relayId hash peerId msg) t1 },
         forwardSignalToBootstrap
           { st with relayed := ainsert st.relayed (relayId hash peerId msg) t1 } resp1) := by
    simp [handleSignaling, htgt, hgc, hfresh]
  refine ⟨?_, ?_, ?_⟩
  · rw [h1]
    rfl
  · rw [h1]
    exact alookup_ainsert_self _ _ _
  · rw [h1]
    have hkeep : (!(decide (t2 - t1 > 5000))) = true := by
      simp [decide_eq_false (Nat.not_lt.mpr hwithin)]
    have hgc2 : getConn (performCleanup
        { st with relayed := ainsert st.relayed (relayId hash peerId msg) t1 } t2)
        msg.targetPeer = none := hconn
    have hhit : alookup (performCleanup
        { st with relayed := ainsert st.relayed (relayId hash peerId msg) t1 } t2).relayed
        (relayId hash peerId msg) = some t1 := by
      unfold performCleanup
      exact alookup_filter_keep _ _ _ _ (alookup_ainsert_self _ _ _) hkeep
    simp [handleSignaling, htgt, hgc2, hhit]

def c6State : ServerState :=
  { ServerState.empty with bootstrapConns :=
      [("ws://hub-b:3000",
        { uri := "ws://hub-b:3000", hasWs := true, connected := true,
          lastAttempt := 0, attemptNum := 0 }),
       ("ws://hub-c:3000",
        { uri := "ws://hub-c:3000", hasWs := true, connected := false,
          lastAttempt := 0, attemptNum := 0 })] }

/-- Witness for the claim C6 theorem: two connected-or-not bootstrap
links, a non-local target, the same offer twice 1000 ms apart. -/
theorem handleSignaling_relay_dedup_witness :
    (offerMsg "t0" "global").targetPeer ≠ "" ∧
    alookup c6State.wsConns "t0" = none ∧
    alookup c6State.relayed (relayId demoHash "a" (offerMsg "t0" "global")) = none ∧
    (1500 : Nat) - 500 ≤ 5000 ∧
    ((handleSignaling demoHash 500 c6State "a" (offerMsg "t0" "global")
        (mkResp 500 "a" (offerMsg "t0" "global"))).2
      = (connectedBootstrapURIs c6State).map
          (fun uri => Output.sendBootstrap uri (mkResp 500 "a" (offerMsg "t0" "global"))) ∧
    alookup (handleSignaling demoHash 500 c6State "a" (offerMsg "t0" "global")
        (mkResp 500 "a" (offerMsg "t0" "global"))).1.relayed
        (relayId demoHash "a" (offerMsg "t0" "global")) = some 500 ∧
    handleSignaling demoHash 1500
        (performCleanup (handleSignaling demoHash 500 c6State "a" (offerMsg "t0" "global")
          (mkResp 500 "a" (offerMsg "t0" "global"))).1 1500) "a" (offerMsg "t0" "global")
        (mkResp 1500 "a" (offerMsg "t0" "global"))
      = (performCleanup (handleSignaling demoHash 500 c6State "a" (offerMsg "t0" "global")
          (mkResp 500 "a" (offerMsg "t0" "global"))).1 1500, [])) :=
  ⟨by decide, by decide, by decide, by decide,
   handleSignaling_relay_dedup demoHash 500 1500 c6State "a" (offerMsg "t0" "global")
     (mkResp 500 "a" (offerMsg "t0" "global")) (mkResp 1500 "a" (offerMsg "t0" "global"))
     (by decide) (by decide) (by decide) (by decide)⟩

def c5Events : List (Nat × Event) :=
  [(1, Event.connect "a" 1 "ip"), (2, Event.connect "b" 2 "ip")]

/-- Counterexample to claim C5 as stated: target `b` is connected but
has not announced, so its stored network is the empty string, which
differs from the message's network `global`; the claim says the offer is
silently dropped, yet the server delivers it to `b`'s socket (the code
defaults an unset target network to `global`). -/
theorem unannounced_target_receives_global_signal :
    ((run demoOpts demoHash c5Events ServerState.empty).bind
        (fun st => (handleMessage demoOpts demoHash 3 st "a" (some (offerMsg "b" ""))).map
          (fun r => (r.2, (alookup st.peerData "b").map peerInfo.networkName))))
      = some ([Output.sendConn 2
          { type := "offer", data := GoValue.gOther "sdp-x", fromPeerId := "a",
            targetPeer := "b", networkName := "global", timestamp := 3 }], some "") := by
  rfl

/-- Claim C5 (amended): for a signaling message with target T and
network N, if T has a live local connection and T's effective network —
its record's `networkName`, defaulting to `global` when the record is
missing or its network is still empty (T not yet announced) — differs
from N, the message is silently dropped: nothing is delivered, nothing
is relayed to any bootstrap link, and the relay-dedup set (the whole
state) is unchanged. -/
theorem handleSignaling_cross_network_drop (hash : GoValue → String) (now : Nat)
    (st : ServerState) (peerId : String) (msg : inboundMessage) (resp : outboundMessage)
    (htarget : msg.targetPeer ≠ "")
    (hconn : (alookup st.wsConns msg.targetPeer).isSome = true)
    (hnet : firstNonEmpty msg.networkName "global"
      ≠ effectiveNetwork (alookup st.peerData msg.targetPeer)) :
    handleSignaling hash now st peerId msg resp = (st, []) := by
  have htgt : (msg.targetPeer == "") = false := beq_eq_false_iff_ne.mpr htarget
  have hbne : (firstNonEmpty msg.networkName "global"
      != effectiveNetwork (getPeerInfo st msg.targetPeer)) = true := bne_iff_ne.mpr hnet
  obtain ⟨c, hc⟩ := Option.isSome_iff_exists.mp hconn
  have hgc : getConn st msg.targetPeer = some c := hc
  simp [handleSignaling, htgt, hgc, hbne]

def c5DropState : ServerState :=
  { ServerState.empty with
      wsConns := [("b", 2)],
      peerData := [("b",
        { peerId := "b", connectedAt := 1, lastActivity := 1, remoteAddress := "ip",
          connected := true, announced := true, announcedAt := 1, networkName := "n2",
          isHub := false, data := [] })] }

/-- Witness for the claim C5 (amended) theorem: an offer into `n1`
addressed to a local target announced in `n2` is dropped. -/
theorem handleSignaling_cross_network_drop_witness :
    (offerMsg "b" "n1").targetPeer ≠ "" ∧
    (alookup c5DropState.wsConns "b").isSome = true ∧
    firstNonEmpty "n1" "global" ≠ effectiveNetwork (alookup c5DropState.peerData "b") ∧
    handleSignaling demoHash 3 c5DropState "a" (offerMsg "b" "n1")
        (mkResp 3 "a" (offerMsg "b" "n1")) = (c5DropState, []) :=
  ⟨by decide, by decide, by decide,
   handleSignaling_cross_network_drop demoHash 3 c5DropState "a" (offerMsg "b" "n1")
     (mkResp 3 "a" (offerMsg "b" "n1")) (by decide) (by decide) (by decide)⟩

theorem dropFromNetworkSet_peerData (st : ServerState) (nn p : String) :
    (dropFromNetworkSet st nn p).peerData = st.peerData := by
  dsimp only [dropFromNetworkSet]
  repeat' split
  all_goals rfl

theorem dropFromNetworkSet_wsConns (st : ServerState) (nn p : String) :
    (dropFromNetworkSet st nn p).wsConns = st.wsConns := by
  dsimp only [dropFromNetworkSet]
  repeat' split
  all_goals rfl

theorem dropFromNetworkSet_hubs (st : ServerState) (nn p : String) :
    (dropFromNetworkSet st nn p).hubs = st.hubs := by
  dsimp only [dropFromNetworkSet]
  repeat' split
  all_goals rfl

theorem dropFromCrossHubCache_peerData (st : ServerState) (nn p : String) :
    (dropFromCrossHubCache st nn p).peerData = st.peerData := by
  dsimp only [dropFromCrossHubCache]
  repeat' split
  all_goals rfl

theorem dropFromCrossHubCache_wsConns (st : ServerState) (nn p : String) :
    (dropFromCrossHubCache st nn p).wsConns = st.wsConns := by
  dsimp only [dropFromCrossHubCache]
  repeat' split
  all_goals rfl

theorem dropFromCrossHubCache_hubs (st : ServerState) (nn p : String) :
    (dropFromCrossHubCache st nn p).hubs = st.hubs := by
  dsimp only [dropFromCrossHubCache]
  repeat' split
  all_goals rfl

theorem dropFromCrossHubCache_networkPeers (st : ServerState) (nn p : String) :
    (dropFromCrossHubCache st nn p).networkPeers = st.networkPeers := by
  dsimp only [dropFromCrossHubCache]
  repeat' split
  all_goals rfl

theorem cleanupPeer_peerData (st : ServerState) (p : String) :
    (cleanupPeer st p).peerData = aerase st.peerData p := by
  dsimp only [cleanupPeer]
  repeat' split
  all_goals simp [dropFromCrossHubCache_peerData, dropFromNetworkSet_peerData]

theorem cleanupPeer_wsConns (st : ServerState) (p : String) :
    (cleanupPeer st p).wsConns = aerase st.wsConns p := by
  dsimp only [cleanupPeer]
  repeat' split
  all_goals simp [dropFromCrossHubCache_wsConns, dropFromNetworkSet_wsConns]

def c4Events : List (Nat × Event) :=
  [(1, Event.connect "p1" 1 "ip"), (2, Event.frame "p1" (announceMsg "n1")),
   (3, Event.connect "q2" 2 "ip"), (4, Event.frame "q2" (announceMsg "n2"))]

/-- Counterexample to claim C4 as stated: `p1` (announced in `n1`) sends
`goodbye` while `q2` is announced in the different network `n2`; the
claim says a `peer-disconnected` frame goes to exactly the other peers
of `n1` (so `q2` receives nothing), yet the server sends `q2` a frame —
and its type is `goodbye`, not `peer-disconnected`. -/
theorem goodbye_crosses_networks_with_type_goodbye :
    ((run demoOpts demoHash c4Events ServerState.empty).bind
        (fun st => (handleMessage demoOpts demoHash 5 st "p1" (some goodbyeMsg)).map
          (fun r => (r.2, (alookup st.peerData "p1").map peerInfo.networkName,
                     (alookup st.peerData "q2").map peerInfo.networkName))))
      = some ([Output.sendConn 2
          { type := "goodbye", data := GoValue.gOther "null", fromPeerId := "p1",
            targetPeer := "q2", networkName := "global", timestamp := 5 }],
          some "n1", some "n2") := by
  rfl

/-- Claim C4 (amended): on `goodbye` from an announced peer P the server
broadcasts P's goodbye envelope itself — type `goodbye`, not
`peer-disconnected` — to every other connected peer regardless of
network, and then removes P from the registry and from the membership
set of P's current network. -/
theorem goodbye_broadcasts_to_all_other_peers (opts : Options) (hash : GoValue → String)
    (now : Nat) (st : ServerState) (peerId : String) (msg : inboundMessage)
    (htype : msg.type = "goodbye") :
    handleMessage opts hash now st peerId (some msg)
      = some (cleanupPeer (touch st peerId now) peerId,
              broadcastToOthers (touch st peerId now) peerId (mkResp now peerId msg)) ∧
    (mkResp now peerId msg).type = "goodbye" ∧
    (∀ o ∈ broadcastToOthers (touch st peerId now) peerId (mkResp now peerId msg),
      ∃ q c, q ≠ peerId ∧ alookup st.wsConns q = some c ∧
        o = Output.sendConn c { mkResp now peerId msg with targetPeer := q }) ∧
    (∀ q c, alookup st.wsConns q = some c → q ≠ peerId →
      Output.sendConn c { mkResp now peerId msg with targetPeer := q }
        ∈ broadcastToOthers (touch st peerId now) peerId (mkResp now peerId msg)) ∧
    alookup (cleanupPeer (touch st peerId now) peerId).peerData peerId = none ∧
    alookup (cleanupPeer (touch st peerId now) peerId).wsConns peerId = none := by
  refine ⟨?_, ?_, ?_, ?_, ?_, ?_⟩
  · simp [handleMessage, htype]
  · simp [mkResp, htype]
  · intro o ho
    rw [mem_broadcastToOthers] at ho
    obtain ⟨q, c, hne, hlk, rfl⟩ := ho
    rw [touch_wsConns] at hlk
    exact ⟨q, c, hne, hlk, rfl⟩
  · intro q c hlk hne
    rw [mem_broadcastToOthers]
    refine ⟨q, c, hne, ?_, rfl⟩
    rw [touch_wsConns]
    exact hlk
  · rw [cleanupPeer_peerData]
    exact alookup_aerase_self _ _
  · rw [cleanupPeer_wsConns]
    exact alookup_aerase_self _ _

def c4WitState : ServerState :=
  { ServerState.empty with wsConns := [("p1", 1), ("q2", 2)] }

/-- Witness for the claim C4 (amended) theorem at a concrete two-peer
server. -/
theorem goodbye_broadcasts_to_all_other_peers_witness :
    goodbyeMsg.type = "goodbye" ∧
    (handleMessage demoOpts demoHash 5 c4WitState "p1" (some goodbyeMsg)
      = some (cleanupPeer (touch c4WitState "p1" 5) "p1",
              broadcastToOthers (touch c4WitState "p1" 5) "p1" (mkResp 5 "p1" goodbyeMsg)) ∧
    (mkResp 5 "p1" goodbyeMsg).type = "goodbye" ∧
    (∀ o ∈ broadcastToOthers (touch c4WitState "p1" 5) "p1" (mkResp 5 "p1" goodbyeMsg),
      ∃ q c, q ≠ "p1" ∧ alookup c4WitState.wsConns q = some c ∧
        o = Output.sendConn c { mkResp 5 "p1" goodbyeMsg with targetPeer := q }) ∧
    (∀ q c, alookup c4WitState.wsConns q = some c → q ≠ "p1" →
      Output.sendConn c { mkResp 5 "p1" goodbyeMsg with targetPeer := q }
        ∈ broadcastToOthers (touch c4WitState "p1" 5) "p1" (mkResp 5 "p1" goodbyeMsg)) ∧
    alookup (cleanupPeer (touch c4WitState "p1" 5) "p1").peerData "p1" = none ∧
    alookup (cleanupPeer (touch c4WitState "p1" 5) "p1").wsConns "p1" = none) :=
  ⟨rfl,
   goodbye_broadcasts_to_all_other_peers demoOpts demoHash 5 c4WitState "p1" goodbyeMsg rfl⟩

theorem cleanupPeer_hubs_of_isHub (st : ServerState) (p : String) (pi : peerInfo)
    (h : alookup st.peerData p = some pi) (hh : pi.isHub = true) :
    alookup (cleanupPeer st p).hubs p = none := by
  simp only [cleanupPeer, h, hh, if_true]
  repeat' split
  all_goals
    simp [dropFromCrossHubCache_hubs, dropFromNetworkSet_hubs, alookup_aerase_self]

theorem cleanupPeer_blocks (st : ServerState) (p : String) (pi : peerInfo)
    (h : alookup st.peerData p = some pi) (hn : (pi.networkName != "") = true) :
    ∃ stMid : ServerState,
      cleanupPeer st p
        = dropFromCrossHubCache (dropFromNetworkSet stMid pi.networkName p)
            pi.networkName p := by
  by_cases hh : pi.isHub = true
  · refine ⟨ServerState.mk (aerase st.wsConns p) (aerase st.peerData p) st.networkPeers
      (aerase st.hubs p) st.relayed st.crossHubCache st.bootstrapConns, ?_⟩
    simp only [cleanupPeer, h, hn, hh, if_true]
  · have hfalse : pi.isHub = false := by
      cases hb : pi.isHub
      · rfl
      · exact absurd hb hh
    refine ⟨ServerState.mk (aerase st.wsConns p) (aerase st.peerData p) st.networkPeers
      st.hubs st.relayed st.crossHubCache st.bootstrapConns, ?_⟩
    simp only [cleanupPeer, h, hn, hfalse, if_true, Bool.false_eq_true, if_false]

theorem dropFromNetworkSet_not_mem (st : ServerState) (nn p : String) (set : List String)
    (hset : alookup (dropFromNetworkSet st nn p).networkPeers nn = some set) : p ∉ set := by
  unfold dropFromNetworkSet at hset
  cases hq : alookup st.networkPeers nn with
  | none =>
    simp only [hq] at hset
    exact Option.noConfusion hset
  | some s =>
    simp only [hq] at hset
    by_cases he : (s.filter (fun id => id != p)).isEmpty = true
    · rw [if_pos he] at hset
      simp only [alookup_aerase_self] at hset
      exact Option.noConfusion hset
    · rw [if_neg he] at hset
      simp only [alookup_ainsert_self, Option.some_inj] at hset
      intro hmem
      rw [← hset] at hmem
      have h2 := (List.mem_filter.mp hmem).2
      simp at h2

theorem dropFromCrossHubCache_lookup (st : ServerState) (nn p : String)
    (cache : List (String × AttrMap))
    (hc : alookup (dropFromCrossHubCache st nn p).crossHubCache nn = some cache) :
    alookup cache p = none := by
  unfold dropFromCrossHubCache at hc
  cases hq : alookup st.crossHubCache nn with
  | none =>
    simp only [hq] at hc
    exact Option.noConfusion hc
  | some cc =>
    simp only [hq, alookup_ainsert_self, Option.some_inj] at hc
    rw [← hc]
    exact alookup_aerase_self _ _

def c1Events : List (Nat × Event) :=
  [(1, Event.connect "p1" 1 "ip"), (2, Event.frame "p1" (announceMsg "n1")),
   (3, Event.frame "p1" (announceMsg "n2")), (4, Event.frame "p1" goodbyeMsg)]

/-- Counterexample to claim C1 as stated: `p1` announces into `n1`,
re-announces into `n2`, then disconnects via `goodbye`.  In the
resulting reachable state the membership set of `n1` still contains
`p1` although no peer record exists (so the set-key/record invariant and
the after-removal clause both fail), while `n2`'s set is gone. -/
theorem stale_network_membership_after_reannounce :
    (run demoOpts demoHash c1Events ServerState.empty).map
      (fun st => (alookup st.networkPeers "n1", alookup st.peerData "p1",
                  alookup st.networkPeers "n2"))
      = some (some ["p1"], none, none) := by
  rfl

/-- Claim C1 (amended): removal of a peer P (socket close, goodbye or
eviction) erases P's record and socket, erases P's hub entry when the
record's isHub flag is set at removal, and erases P from the membership
set and the cross-hub cache of the network recorded in P's peer record
at removal time (when that network is nonempty); membership sets of
networks P announced under earlier may retain P. -/
theorem cleanupPeer_removal_scope (st : ServerState) (peerId : String) (pi : peerInfo)
    (h : alookup st.peerData peerId = some pi) :
    alookup (cleanupPeer st peerId).peerData peerId = none ∧
    alookup (cleanupPeer st peerId).wsConns peerId = none ∧
    (pi.isHub = true → alookup (cleanupPeer st peerId).hubs peerId = none) ∧
    (pi.networkName ≠ "" →
      ∀ set, alookup (cleanupPeer st peerId).networkPeers pi.networkName = some set →
        peerId ∉ set) ∧
    (pi.networkName ≠ "" →
      ∀ cache, alookup (cleanupPeer st peerId).crossHubCache pi.networkName = some cache →
        alookup cache peerId = none) := by
  refine ⟨?_, ?_, ?_, ?_, ?_⟩
  · rw [cleanupPeer_peerData]
    exact alookup_aerase_self _ _
  · rw [cleanupPeer_wsConns]
    exact alookup_aerase_self _ _
  · intro hh
    exact cleanupPeer_hubs_of_isHub st peerId pi h hh
  · intro hn set hset
    obtain ⟨stMid, hmid⟩ := cleanupPeer_blocks st peerId pi h (bne_iff_ne.mpr hn)
    rw [hmid, dropFromCrossHubCache_networkPeers] at hset
    exact dropFromNetworkSet_not_mem _ _ _ _ hset
  · intro hn cache hcache
    obtain ⟨stMid, hmid⟩ := cleanupPeer_blocks st peerId pi h (bne_iff_ne.mpr hn)
    rw [hmid] at hcache
    exact dropFromCrossHubCache_lookup _ _ _ _ hcache

def c1WitState : ServerState :=
  { wsConns := [("p", 1), ("q", 2)],
    peerData := [("p",
      { peerId := "p", connectedAt := 1, lastActivity := 1, remoteAddress := "ip",
        connected := true, announced := true, announcedAt := 1, networkName := "n",
        isHub := true, data := [] })],
    networkPeers := [("n", ["p", "q"])],
    hubs := [("p",
      { peerId := "p", registeredAt := 1, lastActivity := 1, networkName := "n",
        data := [] })],
    relayed := [],
    crossHubCache := [("n", [("p", []), ("r", [])])],
    bootstrapConns := [] }

def c1WitPi : peerInfo :=
  { peerId := "p", connectedAt := 1, lastActivity := 1, remoteAddress := "ip",
    connected := true, announced := true, announcedAt := 1, networkName := "n",
    isHub := true, data := [] }

/-- Witness for the claim C1 (amended) theorem at a concrete populated
server. -/
theorem cleanupPeer_removal_scope_witness :
    alookup c1WitState.peerData "p" = some c1WitPi ∧
    (alookup (cleanupPeer c1WitState "p").peerData "p" = none ∧
    alookup (cleanupPeer c1WitState "p").wsConns "p" = none ∧
    (c1WitPi.isHub = true → alookup (cleanupPeer c1WitState "p").hubs "p" = none) ∧
    (c1WitPi.networkName ≠ "" →
      ∀ set, alookup (cleanupPeer c1WitState "p").networkPeers c1WitPi.networkName = some set →
        "p" ∉ set) ∧
    (c1WitPi.networkName ≠ "" →
      ∀ cache, alookup (cleanupPeer c1WitState "p").crossHubCache c1WitPi.networkName = some cache →
        alookup cache "p" = none)) :=
  ⟨by decide, cleanupPeer_removal_scope c1WitState "p" c1WitPi (by decide)⟩

/-- Claim C2 evaluated at the failing input: a client connects, sends
`goodbye` (which removes its peer record but leaves the socket open),
then sends `announce` on the same socket.  `handleAnnounce` reaches
`pi.Data` with `pi == nil` (server.go line 232) and the read-loop
goroutine panics, killing the process: the run is `none`, refuting the
claim that message handling is total on every inbound frame sequence. -/
theorem announce_after_goodbye_panics :
    run demoOpts demoHash
      [(1, Event.connect "p1" 1 "ip"), (2, Event.frame "p1" goodbyeMsg),
       (3, Event.frame "p1" (announceMsg "n1"))] ServerState.empty = none := by
  rfl

/-- Claim C3 evaluated at the failing input: peer `x` connects on socket
1, reconnects on socket 2 (the server closes socket 1, registers socket
2 and greets it with `connected`), and then socket 1's read loop
observes its close and calls `handleDisconnect("x")` — which removes
socket 2's registration and record, refuting the claim that the new
connection's record and socket remain registered under `x`. -/
theorem reconnect_eviction_unregisters_new_socket :
    ((run demoOpts demoHash [(1, Event.connect "x" 1 "ip")] ServerState.empty).map
      (fun st1 =>
        ((handleWS demoOpts 2 "ip" st1 "x" 2).2,
         alookup (handleWS demoOpts 2 "ip" st1 "x" 2).1.wsConns "x",
         alookup (handleDisconnect (handleWS demoOpts 2 "ip" st1 "x" 2).1 3 "x" "read error").1.wsConns "x",
         alookup (handleDisconnect (handleWS demoOpts 2 "ip" st1 "x" 2).1 3 "x" "read error").1.peerData "x")))
      = some ([Output.closeConn 1 none,
               Output.sendConn 2
                 { type := "connected", data := GoValue.gMap [("peerId", Value.vStr "x")],
                   fromPeerId := "system", targetPeer := "", networkName := "global",
                   timestamp := 2 }],
              some 2, none, none) := by
  rfl

/-- Claim C8 evaluated at the failing input: with bind host `localhost`
and bound port 3000, the bootstrap URI `ws://localhost:3000` parses (in
Go's net/url) to `u.Host = "localhost:3000"` and `u.Port() = "3000"`;
the guard compares `u.Host` — which still carries the port — against the
bare bind host, so it never fires and `connectToHub` proceeds to dial
the server's own endpoint instead of skipping it. -/
theorem self_dial_guard_never_fires :
    urlHostnameOf "ws://localhost:3000" = demoOpts.host ∧
    urlPortOf "ws://localhost:3000" = itoa 3000 ∧
    urlHostOf "ws://localhost:3000" = "localhost:3000" ∧
    selfDialSkip demoOpts 3000 "ws://localhost:3000" = false ∧
    connectToHubDecision demoOpts 3000 "ws://localhost:3000" = DialResult.attempted := by
  refine ⟨?_, ?_, ?_, ?_, ?_⟩ <;> rfl

end PeerPigeon
